import Mathlib

/-!
Verification of the autonomous task-orchestration core of the Hurricane
repository (modules `multi_agent_system.py`, `autonomous_planner.py`,
`reactive_monitor.py`), shallowly embedded in Lean.

Modelling conventions:
* Python `dict` insertion/update (`d[k] = v`) keeps insertion order, updating
  in place when the key exists; it is modelled by `dictSet` on association
  lists, dict iteration is iteration over the association list.
* `uuid.uuid4()` identifiers are modelled by naturals drawn from a counter
  (`nextId`); `datetime.now().isoformat()` timestamps are modelled by natural
  numbers counting seconds, supplied as an explicit `now` argument.
* Python floats used for goal progress are modelled by rationals.
* `asyncio` interleaving: the schedulers run coroutine code atomically between
  `await` suspension points; each such atomic fragment is a separate function
  or step of the transition relation.
-/

namespace Hurricane

/-- Python dict assignment `d[k] = v` on an insertion-ordered association
list: update in place if the key is present, append otherwise. -/
def dictSet {κ α : Type} [DecidableEq κ] : List (κ × α) → κ → α → List (κ × α)
  | [], k, v => [(k, v)]
  | p :: ps, k, v => if p.1 = k then (k, v) :: ps else p :: dictSet ps k v

/-- Python dict lookup: the value stored at the first entry with key `k`. -/
def dictGet {κ α : Type} [DecidableEq κ] : List (κ × α) → κ → Option α
  | [], _ => none
  | p :: ps, k => if p.1 = k then some p.2 else dictGet ps k

namespace MAS

/-- `AgentRole` from `multi_agent_system.py`. -/
inductive AgentRole
  | coordinator
  | coder
  | tester
  | documenter
  | reviewer
  | deployer
  | monitor
deriving DecidableEq, Repr

instance : Fintype AgentRole :=
  ⟨⟨{.coordinator, .coder, .tester, .documenter, .reviewer, .deployer,
      .monitor}, by decide⟩, fun r => by cases r <;> decide⟩

/-- `TaskStatus` from `multi_agent_system.py`. -/
inductive TaskStatus
  | pending
  | assigned
  | inProgress
  | completed
  | failed
  | blocked
deriving DecidableEq, Repr

/-- `AgentTask` dataclass from `multi_agent_system.py`.  The free-form
`outputs`/`context` dicts are modelled as string association lists. -/
structure AgentTask where
  id : Nat
  title : String
  description : String
  assignedAgent : AgentRole
  status : TaskStatus
  priority : Nat
  createdAt : Nat
  startedAt : Option Nat := none
  completedAt : Option Nat := none
  dependencies : List Nat := []
  outputs : List (String × String) := []
  context : List (String × String) := []
deriving DecidableEq, Repr

/-- `Agent` dataclass from `multi_agent_system.py`; `performance_metrics` is
kept as its `tasks_completed` counter, the only entry the scheduler updates. -/
structure Agent where
  role : AgentRole
  name : String
  description : String
  capabilities : List String
  currentTask : Option Nat := none
  taskHistory : List Nat := []
  tasksCompleted : Nat := 0
  isActive : Bool := true
deriving DecidableEq, Repr

/-- In-memory state of `MultiAgentSystem`: the `tasks` dict (insertion
ordered), the `agents` dict keyed by role, and the `task_queue` list. -/
structure MASState where
  tasks : List (Nat × AgentTask)
  agents : AgentRole → Agent
  taskQueue : List Nat

/-- `self.tasks[task_id]` lookup. -/
def findTask (s : MASState) (tid : Nat) : Option AgentTask :=
  dictGet s.tasks tid

/-- The agent built by `_initialize_agents` for a role (fresh start: empty
history, no current task). -/
def initAgent (r : AgentRole) : Agent :=
  match r with
  | .coordinator =>
      { role := r, name := "Hurricane Coordinator",
        description := "Orchestrates tasks and coordinates between agents",
        capabilities := ["task_planning", "workflow_orchestration"] }
  | .coder =>
      { role := r, name := "Hurricane Coder",
        description := "Specialized in code generation, debugging, and refactoring",
        capabilities := ["code_generation", "debugging"] }
  | .tester =>
      { role := r, name := "Hurricane Tester",
        description := "Handles testing, quality assurance, and validation",
        capabilities := ["test_generation", "test_execution"] }
  | .documenter =>
      { role := r, name := "Hurricane Documenter",
        description := "Creates and maintains documentation",
        capabilities := ["documentation_generation"] }
  | .reviewer =>
      { role := r, name := "Hurricane Reviewer",
        description := "Reviews code quality, architecture, and best practices",
        capabilities := ["code_review"] }
  | .deployer =>
      { role := r, name := "Hurricane Deployer",
        description := "Handles deployment, CI and CD, and infrastructure",
        capabilities := ["deployment_automation"] }
  | .monitor =>
      { role := r, name := "Hurricane Monitor",
        description := "Monitors system health, performance, and issues",
        capabilities := ["system_monitoring"] }

/-- Fresh-start state of `MultiAgentSystem.__init__` (no persisted task
file): all seven agents idle, no tasks, empty queue. -/
def initState : MASState :=
  { tasks := [], agents := fun r => initAgent r, taskQueue := [] }

/-- `MultiAgentSystem.create_task`: build a PENDING task, insert it into the
task dict and append its id to the queue.  The fresh uuid is the explicit
`tid` argument. -/
def createTask (s : MASState) (tid : Nat) (title descr : String)
    (role : AgentRole) (priority : Nat) (deps : List Nat)
    (ctx : List (String × String)) (now : Nat) : MASState :=
  let task : AgentTask :=
    { id := tid, title := title, description := descr, assignedAgent := role,
      status := .pending, priority := priority, createdAt := now,
      dependencies := deps, context := ctx }
  { s with tasks := dictSet s.tasks tid task,
           taskQueue := s.taskQueue ++ [tid] }

/-- `MultiAgentSystem.assign_task`: returns the new state and the boolean
result.  Refuses (state unchanged, `false`) when the task is unknown, when
the designated agent already holds a `current_task`, or when some dependency
id that is present in the task dict is not COMPLETED (dependency ids absent
from the dict are ignored, exactly as in the source).  On success the task
becomes ASSIGNED, `started_at` is stamped and the agent records the task as
its `current_task`. -/
def assignTask (s : MASState) (tid : Nat) (now : Nat) : MASState × Bool :=
  match findTask s tid with
  | none => (s, false)
  | some task =>
    let agent := s.agents task.assignedAgent
    if agent.currentTask.isSome then
      (s, false)
    else if task.dependencies.any (fun dep =>
        match findTask s dep with
        | some dt => decide (dt.status ≠ .completed)
        | none => false) then
      (s, false)
    else
      let task' := { task with status := .assigned, startedAt := some now }
      let agent' := { agent with currentTask := some tid }
      ({ s with
          tasks := dictSet s.tasks tid task',
          agents := fun r =>
            if r = task.assignedAgent then agent' else s.agents r }, true)

/-- First atomic fragment of `MultiAgentSystem._execute_task` (up to the
first `await`): the task moves to IN_PROGRESS. -/
def beginTask (s : MASState) (tid : Nat) : MASState :=
  match findTask s tid with
  | none => s
  | some task =>
      { s with tasks := dictSet s.tasks tid { task with status := .inProgress } }

/-- Final atomic fragment of `MultiAgentSystem._execute_task`: on success the
task becomes COMPLETED (stamping `completed_at`, bumping the agent metrics
and history), on failure FAILED; in both cases the `finally` block releases
the agent (`current_task = None`) and drops the task from the queue. -/
def finishTask (s : MASState) (tid : Nat) (success : Bool) (now : Nat) :
    MASState :=
  match findTask s tid with
  | none => s
  | some task =>
    let agent := s.agents task.assignedAgent
    let task' :=
      if success then
        { task with status := .completed, completedAt := some now }
      else
        { task with status := .failed }
    let agent' :=
      if success then
        { agent with currentTask := none,
                     tasksCompleted := agent.tasksCompleted + 1,
                     taskHistory := agent.taskHistory ++ [tid] }
      else
        { agent with currentTask := none }
    { s with
        tasks := dictSet s.tasks tid task',
        agents := fun r => if r = task.assignedAgent then agent' else s.agents r,
        taskQueue := s.taskQueue.erase tid }

/-- The transition relation of the scheduler within one process lifetime.
`create` requires a fresh uuid; `assign` is a successful `assign_task` call
(an unsuccessful call leaves the state unchanged); `start`/`finish` are the
two atomic fragments of the `_execute_task` coroutine, which exists exactly
for the task the agent currently holds. -/
inductive MStep : MASState → MASState → Prop
  | create (s : MASState) (tid : Nat) (title descr : String) (role : AgentRole)
      (priority : Nat) (deps : List Nat) (ctx : List (String × String))
      (now : Nat) :
      findTask s tid = none →
      MStep s (createTask s tid title descr role priority deps ctx now)
  | assign (s s' : MASState) (tid now : Nat) :
      assignTask s tid now = (s', true) →
      MStep s s'
  | start (s : MASState) (tid : Nat) (task : AgentTask) :
      findTask s tid = some task →
      task.status = .assigned →
      (s.agents task.assignedAgent).currentTask = some tid →
      MStep s (beginTask s tid)
  | finish (s : MASState) (tid : Nat) (task : AgentTask) (success : Bool)
      (now : Nat) :
      findTask s tid = some task →
      task.status = .inProgress →
      (s.agents task.assignedAgent).currentTask = some tid →
      MStep s (finishTask s tid success now)

/-- States reachable by the scheduler from a fresh start. -/
def Reachable (s : MASState) : Prop :=
  Relation.ReflTransGen MStep initState s

/-- A task counts against the single-worker constraint while ASSIGNED or
IN_PROGRESS. -/
def activeStatus (st : TaskStatus) : Bool :=
  st = TaskStatus.assigned ∨ st = TaskStatus.inProgress

/-- The task-dict entries a given worker currently holds in a non-terminal
(ASSIGNED/IN_PROGRESS) status. -/
def activeTasksFor (s : MASState) (r : AgentRole) : List (Nat × AgentTask) :=
  s.tasks.filter (fun p => decide (p.2.assignedAgent = r) && activeStatus p.2.status)

/-- Inductive invariant backing the single-worker property: task keys are
distinct, and every active task is exactly the `current_task` of its agent. -/
def Inv (s : MASState) : Prop :=
  (s.tasks.map Prod.fst).Nodup ∧
    ∀ p ∈ s.tasks, activeStatus p.2.status = true →
      (s.agents p.2.assignedAgent).currentTask = some p.1

end MAS

namespace Planner

/-- `TaskPriority` from `autonomous_planner.py`. -/
inductive TaskPriority
  | critical
  | high
  | medium
  | low
deriving DecidableEq, Repr

/-- `TaskStatus` from `autonomous_planner.py` (distinct from the scheduler
status enum). -/
inductive PStatus
  | planned
  | inProgress
  | blocked
  | completed
  | cancelled
deriving DecidableEq, Repr

/-- A value stored in a task's `metadata` dict (booleans such as
`fallback`/`auto_generated`, or an error string). -/
inductive MetaVal
  | bool (b : Bool)
  | str (s : String)
deriving DecidableEq, Repr

/-- `AutonomousTask` dataclass from `autonomous_planner.py`. -/
structure AutonomousTask where
  id : Nat
  title : String
  description : String
  goalContext : Nat
  priority : TaskPriority
  status : PStatus
  createdAt : Nat
  updatedAt : Nat
  estimatedDuration : Nat
  dependencies : List Nat
  requiredTools : List String
  successCriteria : List String
  autonomousActions : List String
  humanApprovalRequired : Bool
  progressPercentage : ℚ
  metadata : List (String × MetaVal)
deriving DecidableEq, Repr

/-- `Goal` dataclass from `autonomous_planner.py`; `status` is an open
string in the source (`active`, `paused`, `completed`, `abandoned`). -/
structure Goal where
  id : Nat
  title : String
  description : String
  targetOutcome : String
  priority : TaskPriority
  deadline : Option String
  createdAt : Nat
  status : String
  progressPercentage : ℚ
  subtasks : List Nat
  successMetrics : List String
  context : List (String × String)
deriving DecidableEq, Repr

/-- A `proactive_suggestions` entry (the fields the claims mention). -/
structure Suggestion where
  taskId : Nat
  title : String
  autonomous : Bool
deriving DecidableEq, Repr

/-- In-memory state of `AutonomousPlanner`: the `goals` and `tasks` dicts,
the decision log (as the ids it records), the proactive-suggestion list and
the uuid counter. -/
structure PlannerState where
  goals : List (Nat × Goal)
  tasks : List (Nat × AutonomousTask)
  decisions : List Nat
  suggestions : List Suggestion
  nextId : Nat
deriving DecidableEq, Repr

/-- `self.goals[goal_id]` lookup. -/
def findGoal (s : PlannerState) (gid : Nat) : Option Goal :=
  dictGet s.goals gid

/-- `self.tasks[task_id]` lookup. -/
def findPTask (s : PlannerState) (tid : Nat) : Option AutonomousTask :=
  dictGet s.tasks tid

/-- State built by `__init__` from the persisted files: `_load_goals` and
`_load_tasks` accept any well-formed stored collections. -/
def loadState (goals : List (Nat × Goal)) (tasks : List (Nat × AutonomousTask))
    (nextId : Nat) : PlannerState :=
  { goals := goals, tasks := tasks, decisions := [], suggestions := [],
    nextId := nextId }

/-- One task entry of the parsed JSON array returned by the generation
service, after the fields have been extracted (`task_data[...]` /
`task_data.get(...)` in `_decompose_goal_into_tasks`). -/
structure ParsedTask where
  title : String
  description : String
  priority : TaskPriority
  estimatedDuration : Nat
  dependencies : List Nat
  requiredTools : List String
  successCriteria : List String
  autonomousActions : List String
  humanApprovalRequired : Bool
deriving DecidableEq, Repr

/-- Outcome of the generation-service call inside
`_decompose_goal_into_tasks`: `failure` when `generate_response` raises or
`json.loads` fails; `parsed items` when a list was parsed, where a `none`
item is an entry that raises while being turned into a task (missing
required field, invalid priority string, ...). -/
inductive GenOutcome
  | failure
  | parsed (items : List (Option ParsedTask))
deriving DecidableEq, Repr

/-- The `AutonomousTask(...)` constructed for one parsed entry in the loop of
`_decompose_goal_into_tasks`. -/
def mkTaskFromParsed (tid now gid : Nat) (pt : ParsedTask) : AutonomousTask :=
  { id := tid, title := pt.title, description := pt.description,
    goalContext := gid, priority := pt.priority, status := .planned,
    createdAt := now, updatedAt := now,
    estimatedDuration := pt.estimatedDuration,
    dependencies := pt.dependencies, requiredTools := pt.requiredTools,
    successCriteria := pt.successCriteria,
    autonomousActions := pt.autonomousActions,
    humanApprovalRequired := pt.humanApprovalRequired,
    progressPercentage := 0,
    metadata := [("auto_generated", .bool true)] }

/-- The fallback task built in the `except` branch of
`_decompose_goal_into_tasks`: approval required, no dependencies, metadata
set to the single entry `fallback = True`. -/
def fallbackTask (tid now : Nat) (g : Goal) : AutonomousTask :=
  { id := tid, title := "Work on: " ++ g.title, description := g.description,
    goalContext := g.id, priority := g.priority, status := .planned,
    createdAt := now, updatedAt := now, estimatedDuration := 60,
    dependencies := [], requiredTools := ["ollama"],
    successCriteria := [g.targetOutcome],
    autonomousActions := ["Analyze requirements", "Generate initial plan"],
    humanApprovalRequired := true, progressPercentage := 0,
    metadata := [("fallback", .bool true)] }

/-- `self.tasks[task.id] = task; goal.subtasks.append(task.id)` — the goal
object is aliased into `self.goals`, so its stored copy is updated too. -/
def addTaskToGoal (s : PlannerState) (gid : Nat) (t : AutonomousTask) :
    PlannerState :=
  let s1 := { s with tasks := dictSet s.tasks t.id t }
  match findGoal s1 gid with
  | none => s1
  | some g =>
      { s1 with goals :=
          dictSet s1.goals gid ({ g with subtasks := g.subtasks ++ [t.id] }) }

/-- The `except` branch of `_decompose_goal_into_tasks`: create the single
fallback task and link it to the goal. -/
def addFallback (s : PlannerState) (gid now : Nat) : PlannerState :=
  match findGoal s gid with
  | none => s
  | some g => addTaskToGoal { s with nextId := s.nextId + 1 } gid
      (fallbackTask s.nextId now g)

/-- The `for task_data in tasks_data` loop of `_decompose_goal_into_tasks`:
tasks are created in order; the first malformed entry raises, the exception
handler then adds the fallback task (tasks created before it remain). -/
def decomposeItems (s : PlannerState) (gid now : Nat) :
    List (Option ParsedTask) → PlannerState
  | [] => s
  | Option.some pt :: rest =>
      let t := mkTaskFromParsed s.nextId now gid pt
      decomposeItems (addTaskToGoal { s with nextId := s.nextId + 1 } gid t)
        gid now rest
  | Option.none :: _ => addFallback s gid now

/-- `AutonomousPlanner._decompose_goal_into_tasks`, parameterised by the
generation-service outcome. -/
def decomposeGoal (s : PlannerState) (gid : Nat) (resp : GenOutcome)
    (now : Nat) : PlannerState :=
  match resp with
  | .failure => addFallback s gid now
  | .parsed items => decomposeItems s gid now items

/-- Strict lexicographic order on the 3-component sort keys Python's `min`
compares (booleans encoded as 0/1 naturals). -/
def keyLt (a b : Nat × Nat × Nat) : Bool :=
  decide (a.1 < b.1) ||
    (decide (a.1 = b.1) &&
      (decide (a.2.1 < b.2.1) ||
        (decide (a.2.1 = b.2.1) && decide (a.2.2 < b.2.2))))

/-- Python `min(xs, key=f)`: the first element with the minimal key, `none`
on the empty list. -/
def pyMinBy {α : Type} (f : α → Nat × Nat × Nat) : List α → Option α
  | [] => none
  | x :: xs =>
      some (xs.foldl (fun best y => if keyLt (f y) (f best) then y else best) x)

/-- The comparison key of `_generate_proactive_suggestions`:
`(priority != critical, priority != high, len(dependencies))`. -/
def suggKey (t : AutonomousTask) : Nat × Nat × Nat :=
  (if t.priority = .critical then 0 else 1,
   if t.priority = .high then 0 else 1,
   t.dependencies.length)

/-- The comparison key of `get_next_autonomous_task`:
`(priority != critical, priority != high, created_at)`. -/
def nextKey (t : AutonomousTask) : Nat × Nat × Nat :=
  (if t.priority = .critical then 0 else 1,
   if t.priority = .high then 0 else 1,
   t.createdAt)

/-- The goal's tasks in PLANNED status, in task-dict insertion order
(`active_tasks` in `_generate_proactive_suggestions`). -/
def goalPlannedTasks (s : PlannerState) (gid : Nat) : List AutonomousTask :=
  (s.tasks.map Prod.snd).filter
    (fun t => decide (t.goalContext = gid) && decide (t.status = .planned))

/-- `AutonomousPlanner._generate_proactive_suggestions`: pick
`min(active_tasks, key=suggKey)` and append a suggestion; no task or goal is
modified. -/
def generateSuggestions (s : PlannerState) (gid : Nat) : PlannerState :=
  match pyMinBy suggKey (goalPlannedTasks s gid) with
  | none => s
  | some t =>
      { s with suggestions := s.suggestions ++
          [{ taskId := t.id, title := t.title,
             autonomous := !t.humanApprovalRequired }] }

/-- `AutonomousPlanner.set_goal`: create the goal (status `active`, empty
subtasks), decompose it, generate the initial suggestion; returns the new
state and the goal id. -/
def setGoal (s : PlannerState) (title descr target : String)
    (priority : TaskPriority) (deadline : Option String) (resp : GenOutcome)
    (now : Nat) : PlannerState × Nat :=
  let gid := s.nextId
  let g : Goal :=
    { id := gid, title := title, description := descr, targetOutcome := target,
      priority := priority, deadline := deadline, createdAt := now,
      status := "active", progressPercentage := 0, subtasks := [],
      successMetrics := [], context := [] }
  let s1 := { s with nextId := gid + 1, goals := dictSet s.goals gid g }
  let s2 := decomposeGoal s1 gid resp now
  (generateSuggestions s2 gid, gid)

/-- `sum(1 for task_id in goal.subtasks if task_id in self.tasks and
self.tasks[task_id].status == COMPLETED)`. -/
def completedCount (s : PlannerState) (g : Goal) : Nat :=
  (g.subtasks.filter (fun tid =>
    match findPTask s tid with
    | some t => decide (t.status = .completed)
    | none => false)).length

/-- `AutonomousPlanner._update_goal_progress`: recompute the percentage as
`(completed / total) * 100` and mark the goal `completed` when it reaches
100; a goal with no subtasks is left untouched. -/
def updateGoalProgress (s : PlannerState) (gid : Nat) : PlannerState :=
  match findGoal s gid with
  | none => s
  | some g =>
    if g.subtasks.isEmpty then s
    else
      let completed := completedCount s g
      let total := g.subtasks.length
      let progress : ℚ := ((completed : ℚ) / (total : ℚ)) * 100
      let g1 := { g with progressPercentage := progress }
      let g2 := if g1.progressPercentage = (100 : ℚ) then
          { g1 with status := "completed" } else g1
      { s with goals := dictSet s.goals gid g2 }

/-- First atomic fragment of `AutonomousPlanner.execute_autonomous_task`
(before its first `await`): the guards it actually checks — task known, no
human approval required, status PLANNED — then the move to IN_PROGRESS and
the decision record.  `none` models the early-return error dicts. -/
def executeStart (s : PlannerState) (tid now : Nat) : Option PlannerState :=
  match findPTask s tid with
  | none => none
  | some t =>
    if t.humanApprovalRequired then none
    else if t.status ≠ PStatus.planned then none
    else
      let t1 : AutonomousTask := { t with status := .inProgress, updatedAt := now }
      some { s with tasks := dictSet s.tasks tid t1,
                    decisions := s.decisions ++ [tid] }

/-- Final fragment of `execute_autonomous_task`: on success the task is
COMPLETED at 100%, the owning goal's progress is recomputed and a new
suggestion emitted; on an exception the task becomes BLOCKED with the error
recorded in its metadata. -/
def executeFinish (s : PlannerState) (tid now : Nat) (success : Bool) :
    PlannerState :=
  match findPTask s tid with
  | none => s
  | some t =>
    if success then
      let t1 : AutonomousTask :=
        { t with progressPercentage := 100, status := .completed,
                 updatedAt := now }
      let s1 := { s with tasks := dictSet s.tasks tid t1 }
      let s2 := updateGoalProgress s1 t.goalContext
      generateSuggestions s2 t.goalContext
    else
      let t1 : AutonomousTask :=
        { t with status := .blocked, updatedAt := now,
                 metadata := dictSet t.metadata "error" (.str "exception") }
      { s with tasks := dictSet s.tasks tid t1 }

/-- All dependencies of the task refer to COMPLETED tasks (a dependency id
with no task behind it counts as unmet). -/
def depsMet (s : PlannerState) (t : AutonomousTask) : Bool :=
  t.dependencies.all (fun dep =>
    match findPTask s dep with
    | some dt => decide (dt.status = .completed)
    | none => false)

/-- `AutonomousPlanner.get_next_autonomous_task`: PLANNED, approval-free
tasks with an empty dependency list, minimised by `nextKey`. -/
def getNextAutonomousTask (s : PlannerState) : Option AutonomousTask :=
  pyMinBy nextKey ((s.tasks.map Prod.snd).filter (fun t =>
    decide (t.status = .planned) && !t.humanApprovalRequired &&
      decide (t.dependencies.length = 0)))

/-- Priority rank used by the spec's selection rule (critical highest). -/
def specPriorityRank : TaskPriority → Nat
  | .critical => 0
  | .high => 1
  | .medium => 2
  | .low => 3

/-- Follows the spec's words, for comparison with `generateSuggestions`:
among the goal's PLANNED tasks with no unmet dependencies, the task of
highest priority, ties broken by earliest creation time. -/
def specSuggestedTask (s : PlannerState) (gid : Nat) : Option AutonomousTask :=
  pyMinBy (fun t => (specPriorityRank t.priority, t.createdAt, 0))
    ((goalPlannedTasks s gid).filter (depsMet s))

end Planner

namespace MAS

/-- The readiness test of `_coordinate_workflow_tasks`: status PENDING and
every dependency present in the task dict with status COMPLETED (here, unlike
`assign_task`, a dependency id without a task behind it blocks). -/
def readyPred (s : MASState) (tid : Nat) : Bool :=
  match findTask s tid with
  | some task =>
      decide (task.status = .pending) &&
        task.dependencies.all (fun dep =>
          match findTask s dep with
          | some dt => decide (dt.status = .completed)
          | none => false)
  | none => false

/-- `ready_tasks`, computed in the order of the workflow's `task_ids` list. -/
def readyList (s : MASState) (ids : List Nat) : List Nat :=
  ids.filter (readyPred s)

/-- The `for task_id in ready_tasks: await self.assign_task(task_id)` loop:
assignment attempts in list order, each possibly failing (worker busy) and
leaving the state unchanged. -/
def assignAll (s : MASState) (ready : List Nat) (now : Nat) : MASState :=
  ready.foldl (fun st tid => (assignTask st tid now).1) s

/-- One pass of the `while task_ids` body of `_coordinate_workflow_tasks`
(before the `sleep`): compute the ready list, attempt to assign each ready
task, and remove every ready task from `task_ids` — whether or not its
assignment succeeded, exactly as in the source. -/
def coordinateIter (s : MASState) (ids : List Nat) (now : Nat) :
    MASState × List Nat :=
  let ready := readyList s ids
  (assignAll s ready now, ids.filter (fun tid => !ready.contains tid))

/-- The failure check after the `sleep`: it scans only the ids still in
`task_ids` (tasks never yet assigned). -/
def failedCheck (s : MASState) (ids : List Nat) : Bool :=
  ids.any (fun tid =>
    match findTask s tid with
    | some t => decide (t.status = .failed)
    | none => false)

/-- Result of running the coordination loop for a bounded number of
iterations. -/
inductive LoopResult
  | running
  | drained
  | haltedOnFailure
deriving DecidableEq, Repr

/-- The `while task_ids` loop of `_coordinate_workflow_tasks` in a quiescent
phase (no in-flight task execution interleaving at the `sleep`), run for
`fuel` iterations: exit when `task_ids` is empty, break when the failure
check fires. -/
def coordinateLoop (fuel : Nat) (s : MASState) (ids : List Nat) (now : Nat) :
    MASState × List Nat × LoopResult :=
  match fuel with
  | 0 => (s, ids, .running)
  | fuel + 1 =>
    if ids.isEmpty then (s, ids, .drained)
    else
      let r := coordinateIter s ids now
      if failedCheck r.1 r.2 then (r.1, r.2, .haltedOnFailure)
      else coordinateLoop fuel r.1 r.2 now

end MAS

namespace Monitor

/-- `FileEvent` dataclass from `reactive_monitor.py`; timestamps in
seconds. -/
structure FileEvent where
  eventType : String
  filePath : String
  timestamp : Nat
  size : Option Nat := none
  isDirectory : Bool := false
  oldPath : Option String := none
deriving DecidableEq, Repr

/-- A value of a notification's context dict. -/
inductive CtxVal
  | str (s : String)
  | nat (n : Nat)
deriving DecidableEq, Repr

/-- `Notification` dataclass from `reactive_monitor.py`; the id is modelled
by the `len(self.notifications)` component of the generated id string. -/
structure MNotification where
  id : Nat
  ntype : String
  title : String
  priority : Nat
  actions : List String
  context : List (String × CtxVal)
  acknowledged : Bool := false
deriving DecidableEq, Repr

/-- In-memory state of `ReactiveMonitor`: the rolling event log and the
notification list. -/
structure MonitorState where
  fileEvents : List FileEvent
  notifications : List MNotification
deriving DecidableEq, Repr

/-- The severity-to-priority map of `_create_notification`. -/
def typePriority (ty : String) : Nat :=
  if ty = "error" then 5
  else if ty = "warning" then 3
  else if ty = "info" then 2
  else if ty = "success" then 1
  else 2

/-- `ReactiveMonitor._create_notification`: append an unacknowledged
notification. -/
def createNotification (s : MonitorState) (ty title : String)
    (actions : List String) (ctx : List (String × CtxVal)) : MonitorState :=
  { s with notifications := s.notifications ++
      [{ id := s.notifications.length, ntype := ty, title := title,
         priority := typePriority ty, actions := actions, context := ctx }] }

/-- Python `l[-n:]`. -/
def lastN {α : Type} (n : Nat) (l : List α) : List α :=
  l.drop (l.length - n)

/-- `(datetime.now() - event_time).seconds` for an event in the past: the
seconds component of the timedelta, i.e. the difference modulo one day. -/
def tdSeconds (now ts : Nat) : Nat :=
  (now - ts) % 86400

/-- `Path(p).name`: the final path component. -/
def fileName (p : String) : String :=
  (p.splitOn "/").getLastD ""

/-- The extensions `_analyze_file_event` treats as code files; membership of
`Path(p).suffix` in this list is modelled by an extension-suffix test. -/
def codeSuffixes : List String := [".py", ".js", ".json", ".yaml", ".yml"]

def hasCodeSuffix (p : String) : Bool :=
  codeSuffixes.any (fun suf => p.endsWith suf)

/-- The dependency-manifest filenames `_analyze_file_event` watches. -/
def dependencyNames : List String :=
  ["requirements.txt", "package.json", "pyproject.toml", "Pipfile"]

/-- `ReactiveMonitor._analyze_file_event`, run with the event already
appended to `file_events` (as `_process_file_events` does) and `now` the
analysis time: the four checks in source order — large file, rapid changes
(counting same-path events of any type among the last 10 stored events whose
age passes the `tdSeconds` test), new code file, dependency file. -/
def analyzeFileEvent (s : MonitorState) (e : FileEvent) (now : Nat) :
    MonitorState :=
  let s1 :=
    match e.size with
    | some n =>
        if 1048576 < n then
          createNotification s "warning" "Large File Created"
            ["Review file size", "Consider compression", "Check if intentional"]
            [("file_path", .str e.filePath), ("size", .nat n)]
        else s
    | none => s
  let s2 :=
    if e.eventType = "modified" then
      let recent := (lastN 10 s1.fileEvents).filter (fun ev =>
        decide (ev.filePath = e.filePath) &&
          decide (tdSeconds now ev.timestamp < 60))
      if 5 < recent.length then
        createNotification s1 "info" "Rapid File Changes"
          ["Check if auto-save is causing issues", "Review changes"]
          [("file_path", .str e.filePath), ("change_count", .nat recent.length)]
      else s1
    else s1
  let s3 :=
    if hasCodeSuffix e.filePath && decide (e.eventType = "created") then
      createNotification s2 "info" "New Code File"
        ["Review new file", "Add to version control", "Run analysis"]
        [("file_path", .str e.filePath)]
    else s2
  if dependencyNames.contains (fileName e.filePath) then
    createNotification s3 "warning" "Dependency File Changed"
      ["Review changes", "Update dependencies", "Test compatibility"]
      [("file_path", .str e.filePath)]
  else s3

/-- One event handled by `_process_file_events`: append to the log, then
analyze (the analysis sees the event itself in the log). -/
def processEvent (s : MonitorState) (e : FileEvent) (now : Nat) : MonitorState :=
  analyzeFileEvent { s with fileEvents := s.fileEvents ++ [e] } e now

/-- A batch of events drained in order; each is analyzed at its own
timestamp. -/
def processEvents (s : MonitorState) (evs : List FileEvent) : MonitorState :=
  evs.foldl (fun st e => processEvent st e e.timestamp) s

/-- The "rapid changes" notifications that name a given path. -/
def rapidNotifsFor (s : MonitorState) (path : String) : List MNotification :=
  s.notifications.filter (fun n =>
    decide (n.title = "Rapid File Changes") &&
      n.context.any (fun c =>
        decide (c.1 = "file_path") && decide (c.2 = CtxVal.str path)))

/-- The number of modified-type events for `path` with timestamp in
`[t1, t2]`, used to state the claim's premise. -/
def modifiedCountWithin (evs : List FileEvent) (path : String) (t1 t2 : Nat) :
    Nat :=
  (evs.filter (fun e =>
    decide (e.eventType = "modified") && decide (e.filePath = path) &&
      decide (t1 ≤ e.timestamp) && decide (e.timestamp ≤ t2))).length

end Monitor

namespace Planner

/-- A Python runtime value as seen by `dataclasses.asdict` + `json.dump`;
`enum` members are the values `json.dump` rejects with a `TypeError`. -/
inductive PyVal
  | str (s : String)
  | num (q : ℚ)
  | bool (b : Bool)
  | noneV
  | list (l : List PyVal)
  | dict (l : List (String × PyVal))
  | enum (cls value : String)
deriving Repr

mutual

/-- Whether `json.dump` accepts the value (it raises on enum members). -/
def serializable : PyVal → Bool
  | .str _ => true
  | .num _ => true
  | .bool _ => true
  | .noneV => true
  | .enum _ _ => false
  | .list l => serializableList l
  | .dict l => serializableDict l

def serializableList : List PyVal → Bool
  | [] => true
  | v :: vs => serializable v && serializableList vs

def serializableDict : List (String × PyVal) → Bool
  | [] => true
  | p :: ps => serializable p.2 && serializableDict ps

end

/-- `.value` of a `TaskPriority` member. -/
def priorityValue : TaskPriority → String
  | .critical => "critical"
  | .high => "high"
  | .medium => "medium"
  | .low => "low"

/-- `TaskPriority(str)`: the inverse lookup, raising (`none`) on an unknown
string. -/
def parsePriority : String → Option TaskPriority
  | "critical" => some .critical
  | "high" => some .high
  | "medium" => some .medium
  | "low" => some .low
  | _ => none

/-- `.value` of a planner `TaskStatus` member. -/
def statusValue : PStatus → String
  | .planned => "planned"
  | .inProgress => "in_progress"
  | .blocked => "blocked"
  | .completed => "completed"
  | .cancelled => "cancelled"

/-- `TaskStatus(str)` for the planner enum. -/
def parseStatus : String → Option PStatus
  | "planned" => some .planned
  | "in_progress" => some .inProgress
  | "blocked" => some .blocked
  | "completed" => some .completed
  | "cancelled" => some .cancelled
  | _ => none

/-- `asdict(goal)` in `_save_goals`: note that the `priority` field keeps its
raw enum member — `_save_goals` performs no enum-to-string conversion. -/
def goalToPy (g : Goal) : PyVal :=
  .dict [("id", .str (toString g.id)),
         ("title", .str g.title),
         ("description", .str g.description),
         ("target_outcome", .str g.targetOutcome),
         ("priority", .enum "TaskPriority" (priorityValue g.priority)),
         ("deadline", match g.deadline with | some d => .str d | none => .noneV),
         ("created_at", .str (toString g.createdAt)),
         ("status", .str g.status),
         ("progress_percentage", .num g.progressPercentage),
         ("subtasks", .list (g.subtasks.map (fun i => .str (toString i)))),
         ("success_metrics", .list (g.successMetrics.map .str)),
         ("context", .dict (g.context.map (fun p => (p.1, .str p.2))))]

def metaValToPy : MetaVal → PyVal
  | .bool b => .bool b
  | .str s => .str s

def metaValFromPy : PyVal → Option MetaVal
  | .bool b => some (.bool b)
  | .str s => some (.str s)
  | _ => none

/-- `asdict(task)` with the explicit enum-to-string conversions performed by
`_save_tasks` (`task_data['priority'] = task.priority.value`, likewise for
`status`). -/
def taskToPy (t : AutonomousTask) : PyVal :=
  .dict [("id", .str (toString t.id)),
         ("title", .str t.title),
         ("description", .str t.description),
         ("goal_context", .str (toString t.goalContext)),
         ("priority", .str (priorityValue t.priority)),
         ("status", .str (statusValue t.status)),
         ("created_at", .str (toString t.createdAt)),
         ("updated_at", .str (toString t.updatedAt)),
         ("estimated_duration", .num t.estimatedDuration),
         ("dependencies", .list (t.dependencies.map (fun i => .str (toString i)))),
         ("required_tools", .list (t.requiredTools.map .str)),
         ("success_criteria", .list (t.successCriteria.map .str)),
         ("autonomous_actions", .list (t.autonomousActions.map .str)),
         ("human_approval_required", .bool t.humanApprovalRequired),
         ("progress_percentage", .num t.progressPercentage),
         ("metadata", .dict (t.metadata.map (fun p => (p.1, metaValToPy p.2))))]

/-- `_save_goals`: `json.dump(asdict-per-goal dict)`; raises inside the
`try` (nothing written) when any value is not serializable. -/
def dumpGoals (goals : List (Nat × Goal)) : Option PyVal :=
  let d := PyVal.dict (goals.map (fun p => (toString p.1, goalToPy p.2)))
  if serializable d then some d else Option.none

/-- `_save_tasks`: same, after the enum conversions. -/
def dumpTasks (tasks : List (Nat × AutonomousTask)) : Option PyVal :=
  let d := PyVal.dict (tasks.map (fun p => (toString p.1, taskToPy p.2)))
  if serializable d then some d else Option.none

/-- The goals file after `_save_goals`: replaced on success, left as it was
when `json.dump` raises (the `except` branch only logs). -/
def saveGoalsStore (store : Option PyVal) (s : PlannerState) : Option PyVal :=
  match dumpGoals s.goals with
  | some j => some j
  | Option.none => store

def lookupStr (d : List (String × PyVal)) (k : String) : Option PyVal :=
  dictGet d k

def parseStr : PyVal → Option String
  | .str s => some s
  | _ => none

def parseNatVal : PyVal → Option Nat
  | .str s => s.toNat?
  | .num q => if q.den = 1 ∧ 0 ≤ q.num then some q.num.toNat else none
  | _ => none

def parseStrList : PyVal → Option (List String)
  | .list l => l.mapM parseStr
  | _ => none

def parseNatList : PyVal → Option (List Nat)
  | .list l => l.mapM parseNatVal
  | _ => none

def parseQ : PyVal → Option ℚ
  | .num q => some q
  | _ => none

def parseMeta : PyVal → Option (List (String × MetaVal))
  | .dict l => l.mapM (fun p => (metaValFromPy p.2).map (fun v => (p.1, v)))
  | _ => none

/-- `AutonomousTask(**task_data)` after `_load_tasks` has re-converted the
`priority` and `status` strings with the enum constructors. -/
def parseBool : PyVal → Option Bool
  | .bool b => some b
  | _ => none

def taskFromPy (v : PyVal) : Option AutonomousTask :=
  match v with
  | .dict d => do
    let id ← (lookupStr d "id").bind parseNatVal
    let title ← (lookupStr d "title").bind parseStr
    let descr ← (lookupStr d "description").bind parseStr
    let gctx ← (lookupStr d "goal_context").bind parseNatVal
    let prio ← ((lookupStr d "priority").bind parseStr).bind parsePriority
    let stat ← ((lookupStr d "status").bind parseStr).bind parseStatus
    let created ← (lookupStr d "created_at").bind parseNatVal
    let updated ← (lookupStr d "updated_at").bind parseNatVal
    let dur ← (lookupStr d "estimated_duration").bind parseNatVal
    let deps ← (lookupStr d "dependencies").bind parseNatList
    let tools ← (lookupStr d "required_tools").bind parseStrList
    let crit ← (lookupStr d "success_criteria").bind parseStrList
    let acts ← (lookupStr d "autonomous_actions").bind parseStrList
    let appr ← (lookupStr d "human_approval_required").bind parseBool
    let prog ← (lookupStr d "progress_percentage").bind parseQ
    let md ← (lookupStr d "metadata").bind parseMeta
    pure { id := id, title := title, description := descr, goalContext := gctx,
           priority := prio, status := stat, createdAt := created,
           updatedAt := updated, estimatedDuration := dur,
           dependencies := deps, requiredTools := tools,
           successCriteria := crit, autonomousActions := acts,
           humanApprovalRequired := appr, progressPercentage := prog,
           metadata := md }
  | _ => none

/-- `_load_tasks`: an absent file yields the empty dict; a stored dict is
parsed entry by entry, any failure degrading to the empty dict (the `except`
branch). -/
def loadTasksStore (store : Option PyVal) : List (Nat × AutonomousTask) :=
  match store with
  | Option.none => []
  | some (.dict entries) =>
      match entries.mapM (fun p =>
          match p.1.toNat?, taskFromPy p.2 with
          | some k, some t => some (k, t)
          | _, _ => Option.none) with
      | some l => l
      | Option.none => []
  | some _ => []

end Planner

namespace MAS

/-- Concrete scenario: a fresh coder task. -/
def demoCreated : MASState :=
  createTask initState 1 "implement feature" "write the code" .coder 3 [] [] 0

/-- Concrete scenario: the coder task after a successful `assign_task`. -/
def demoAssigned : MASState := (assignTask demoCreated 1 1).1

/-- Concrete scenario for workflow dispatch: two ready coder tasks, the
first-created with priority 1, the second-created with priority 5. -/
def twoCoderTasks : MASState :=
  createTask (createTask initState 1 "first task" "low priority" .coder 1 [] [] 0)
    2 "second task" "high priority" .coder 5 [] [] 1

/-- State after one pass of the workflow coordination over the two coder
tasks. -/
def twoCoderAfterIter : MASState := (coordinateIter twoCoderTasks [1, 2] 5).1

/-- State after the assigned first task then runs to completion. -/
def twoCoderFinal : MASState :=
  finishTask (beginTask twoCoderAfterIter 1) 1 true 9

/-- Concrete scenario for workflow failure: a coder task and a tester task
depending on it. -/
def failWorkflow : MASState :=
  createTask (createTask initState 1 "build" "build it" .coder 3 [] [] 0)
    2 "test" "test it" .tester 3 [1] [] 1

/-- State after the first coordination pass dispatched the coder task. -/
def failAfterIter : MASState := (coordinateIter failWorkflow [1, 2] 2).1

/-- State after the coder task's execution fails. -/
def failAfterFailure : MASState :=
  finishTask (beginTask failAfterIter 1) 1 false 4

/-- Placeholder task record for `Option.getD`. -/
def dummyTask : AgentTask :=
  { id := 0, title := "", description := "", assignedAgent := .coder,
    status := .pending, priority := 0, createdAt := 0 }

/-- A coder task created, assigned, executed and completed. -/
def masDepDone : MASState :=
  finishTask
    (beginTask ((assignTask (createTask initState 1 "dep" "the dependency"
      .coder 3 [] [] 0) 1 1).1) 1) 1 true 2

/-- A tester task depending on the completed coder task. -/
def masDepState : MASState :=
  createTask masDepDone 2 "next" "the dependent" .tester 3 [1] [] 3

/-- The state after the dependent task is successfully assigned. -/
def masDepAssigned : MASState := (assignTask masDepState 2 4).1

/-- The stored record of the dependent task. -/
def masDepTask2 : AgentTask := (findTask masDepState 2).getD dummyTask

/-- The stored record of the completed dependency. -/
def masDepTask1After : AgentTask := (findTask masDepState 1).getD dummyTask

end MAS

namespace Planner

/-- `hasBadItem items`: the decomposition loop over `items` hits a malformed
entry (and therefore falls back) before finishing. -/
def hasBadItem : List (Option ParsedTask) → Bool
  | [] => false
  | Option.some _ :: rest => hasBadItem rest
  | Option.none :: _ => true

/-- Number of tasks the decomposition loop creates from `items` (parsed
entries up to the first malformed one, which yields the single fallback). -/
def itemsAdded : List (Option ParsedTask) → Nat
  | [] => 0
  | Option.some _ :: rest => 1 + itemsAdded rest
  | Option.none :: _ => 1

/-- A task that is the decomposition fallback for goal `gid`: linked to the
goal and carrying the `fallback = True` metadata marker. -/
def isFallbackFor (gid : Nat) (t : AutonomousTask) : Bool :=
  decide (t.goalContext = gid) &&
    decide (dictGet t.metadata "fallback" = some (MetaVal.bool true))

/-- How many fallback tasks for goal `gid` a task dict holds. -/
def fallbackCountL (gid : Nat) (l : List (Nat × AutonomousTask)) : Nat :=
  ((l.map Prod.snd).filter (isFallbackFor gid)).length

/-- How many fallback tasks for goal `gid` the state holds. -/
def fallbackCountFor (s : PlannerState) (gid : Nat) : Nat :=
  fallbackCountL gid s.tasks

/-- All task keys are below the uuid counter — the model of `uuid.uuid4()`
never colliding with an existing id. -/
def FreshIds (s : PlannerState) : Prop :=
  ∀ p ∈ s.tasks, p.1 < s.nextId

/-- The empty planner state (no stored goals or tasks). -/
def emptyPlanner : PlannerState := loadState [] [] 0

/-- Concrete goal with two subtasks. -/
def demoGoal : Goal :=
  { id := 10, title := "ship the feature", description := "ship it",
    targetOutcome := "feature shipped", priority := .medium, deadline := none,
    createdAt := 0, status := "active", progressPercentage := 0,
    subtasks := [1, 2], successMetrics := [], context := [] }

/-- Concrete completed subtask of `demoGoal`. -/
def demoTask1 : AutonomousTask :=
  { id := 1, title := "write code", description := "code it",
    goalContext := 10, priority := .high, status := .completed,
    createdAt := 1, updatedAt := 4, estimatedDuration := 30,
    dependencies := [], requiredTools := [], successCriteria := [],
    autonomousActions := [], humanApprovalRequired := false,
    progressPercentage := 100, metadata := [] }

/-- Concrete still-planned subtask of `demoGoal`. -/
def demoTask2 : AutonomousTask :=
  { id := 2, title := "write tests", description := "test it",
    goalContext := 10, priority := .medium, status := .planned,
    createdAt := 2, updatedAt := 2, estimatedDuration := 30,
    dependencies := [1], requiredTools := [], successCriteria := [],
    autonomousActions := [], humanApprovalRequired := false,
    progressPercentage := 0, metadata := [] }

/-- Concrete planner state: `demoGoal` with one completed and one planned
subtask. -/
def demoPlanner : PlannerState :=
  loadState [(10, demoGoal)] [(1, demoTask1), (2, demoTask2)] 20

/-- A planned task with no dependencies (counterexample base). -/
def depBaseTask : AutonomousTask :=
  { id := 0, title := "prepare", description := "prepare things",
    goalContext := 10, priority := .medium, status := .planned,
    createdAt := 0, updatedAt := 0, estimatedDuration := 30,
    dependencies := [], requiredTools := [], successCriteria := [],
    autonomousActions := ["step one"], humanApprovalRequired := false,
    progressPercentage := 0, metadata := [] }

/-- An approval-free planned task depending on `depBaseTask`. -/
def depGatedTask : AutonomousTask :=
  { id := 1, title := "finish", description := "finish things",
    goalContext := 10, priority := .medium, status := .planned,
    createdAt := 1, updatedAt := 1, estimatedDuration := 30,
    dependencies := [0], requiredTools := [], successCriteria := [],
    autonomousActions := ["step two"], humanApprovalRequired := false,
    progressPercentage := 0, metadata := [] }

/-- Planner state (as loaded from the stores) holding both tasks; the
dependency of task 1 on task 0 is not completed. -/
def depState : PlannerState :=
  loadState [] [(0, depBaseTask), (1, depGatedTask)] 2

/-- The state `execute_autonomous_task` produces for task 1 of `depState`
up to its first suspension point. -/
def depStateStarted : PlannerState :=
  (executeStart depState 1 5).getD emptyPlanner

/-- A low-priority planned task with no dependencies, created first. -/
def lowFirstTask : AutonomousTask :=
  { id := 1, title := "polish docs", description := "polish",
    goalContext := 10, priority := .low, status := .planned,
    createdAt := 0, updatedAt := 0, estimatedDuration := 30,
    dependencies := [], requiredTools := [], successCriteria := [],
    autonomousActions := [], humanApprovalRequired := false,
    progressPercentage := 0, metadata := [] }

/-- A medium-priority planned task with no dependencies, created second. -/
def mediumSecondTask : AutonomousTask :=
  { id := 2, title := "fix bug", description := "fix",
    goalContext := 10, priority := .medium, status := .planned,
    createdAt := 1, updatedAt := 1, estimatedDuration := 30,
    dependencies := [], requiredTools := [], successCriteria := [],
    autonomousActions := [], humanApprovalRequired := false,
    progressPercentage := 0, metadata := [] }

/-- Goal owning the two suggestion-contending tasks. -/
def suggGoal : Goal :=
  { id := 10, title := "improve project", description := "improve",
    targetOutcome := "better project", priority := .medium, deadline := none,
    createdAt := 0, status := "active", progressPercentage := 0,
    subtasks := [1, 2], successMetrics := [], context := [] }

/-- Planner state for the suggestion counterexample. -/
def suggState : PlannerState :=
  loadState [(10, suggGoal)] [(1, lowFirstTask), (2, mediumSecondTask)] 20

end Planner

namespace Monitor

/-- A modified-type event for `path` at time `t` (no size recorded). -/
def modEvent (path : String) (t : Nat) : FileEvent :=
  { eventType := "modified", filePath := path, timestamp := t }

/-- The empty monitor state. -/
def emptyMonitor : MonitorState := { fileEvents := [], notifications := [] }

/-- Scenario D: six modified events for one path within ten seconds, nothing
in between. -/
def scenarioD : List FileEvent :=
  [modEvent "a.txt" 0, modEvent "a.txt" 2, modEvent "a.txt" 4,
   modEvent "a.txt" 6, modEvent "a.txt" 8, modEvent "a.txt" 10]

/-- Monitor state after processing Scenario D. -/
def scenarioDState : MonitorState := processEvents emptyMonitor scenarioD

/-- Six modified events for `a.txt` within sixteen seconds, with two
modified events for `b.txt` between each consecutive pair. -/
def interleavedEvents : List FileEvent :=
  [modEvent "a.txt" 0, modEvent "b.txt" 1, modEvent "b.txt" 1,
   modEvent "a.txt" 3, modEvent "b.txt" 4, modEvent "b.txt" 4,
   modEvent "a.txt" 6, modEvent "b.txt" 7, modEvent "b.txt" 7,
   modEvent "a.txt" 9, modEvent "b.txt" 10, modEvent "b.txt" 10,
   modEvent "a.txt" 12, modEvent "b.txt" 13, modEvent "b.txt" 13,
   modEvent "a.txt" 15]

/-- Monitor state after processing the interleaved sequence. -/
def interleavedState : MonitorState := processEvents emptyMonitor interleavedEvents

end Monitor

end Hurricane

namespace Hurricane

theorem dictGet_dictSet_self {κ α : Type} [DecidableEq κ]
    (l : List (κ × α)) (k : κ) (v : α) :
    dictGet (dictSet l k v) k = some v := by
  induction l with
  | nil => simp [dictSet, dictGet]
  | cons p ps ih =>
    by_cases h : p.1 = k
    · simp [dictSet, dictGet, h]
    · simp [dictSet, dictGet, h, ih]

theorem dictGet_dictSet_ne {κ α : Type} [DecidableEq κ]
    (l : List (κ × α)) (k j : κ) (v : α) (h : j ≠ k) :
    dictGet (dictSet l k v) j = dictGet l j := by
  have hkj : ¬ (k = j) := fun he => h he.symm
  induction l with
  | nil => simp [dictSet, dictGet, hkj]
  | cons p ps ih =>
    by_cases hp : p.1 = k
    · simp only [dictSet, if_pos hp, dictGet]
      rw [if_neg hkj, if_neg (show ¬ p.1 = j by rw [hp]; exact hkj)]
    · simp only [dictSet, if_neg hp, dictGet]
      by_cases hj : p.1 = j
      · rw [if_pos hj, if_pos hj]
      · rw [if_neg hj, if_neg hj, ih]

theorem map_fst_dictSet {κ α : Type} [DecidableEq κ]
    (l : List (κ × α)) (k : κ) (v : α) :
    (dictSet l k v).map Prod.fst =
      if (dictGet l k).isSome then l.map Prod.fst
      else l.map Prod.fst ++ [k] := by
  induction l with
  | nil => simp [dictSet, dictGet]
  | cons p ps ih =>
    by_cases h : p.1 = k
    · simp [dictSet, dictGet, h]
    · simp only [dictSet, dictGet, if_neg h, List.map_cons]
      rw [ih]
      by_cases hs : (dictGet ps k).isSome
      · simp [hs]
      · simp [hs]

theorem dictGet_eq_some_mem {κ α : Type} [DecidableEq κ]
    {l : List (κ × α)} {k : κ} {v : α}
    (h : dictGet l k = some v) : (k, v) ∈ l := by
  induction l with
  | nil => simp [dictGet] at h
  | cons p ps ih =>
    by_cases hp : p.1 = k
    · simp only [dictGet, if_pos hp] at h
      have : p = (k, v) := by
        cases p; cases h; cases hp; rfl
      simp [this]
    · simp only [dictGet, if_neg hp] at h
      exact List.mem_cons_of_mem _ (ih h)

theorem dictGet_eq_none_forall {κ α : Type} [DecidableEq κ]
    {l : List (κ × α)} {k : κ}
    (h : dictGet l k = none) : ∀ p ∈ l, p.1 ≠ k := by
  induction l with
  | nil => simp
  | cons p ps ih =>
    by_cases hp : p.1 = k
    · simp [dictGet, hp] at h
    · simp only [dictGet, if_neg hp] at h
      intro q hq
      rcases List.mem_cons.mp hq with rfl | hq'
      · exact hp
      · exact ih h q hq'

theorem mem_dictSet_of_nodup {κ α : Type} [DecidableEq κ]
    (l : List (κ × α)) (k : κ) (v : α)
    (hnd : (l.map Prod.fst).Nodup) (p : κ × α) (hp : p ∈ dictSet l k v) :
    p = (k, v) ∨ (p ∈ l ∧ p.1 ≠ k) := by
  induction l with
  | nil =>
    simp [dictSet] at hp
    exact Or.inl hp
  | cons q qs ih =>
    have hnd1 : (q.1 :: qs.map Prod.fst).Nodup := by simpa using hnd
    rcases List.nodup_cons.mp hnd1 with ⟨hq, hnd'⟩
    by_cases hqk : q.1 = k
    · simp only [dictSet, if_pos hqk] at hp
      rcases List.mem_cons.mp hp with rfl | hmem
      · exact Or.inl rfl
      · refine Or.inr ⟨List.mem_cons_of_mem _ hmem, fun hpk => hq ?_⟩
        rw [hqk, ← hpk]
        exact List.mem_map_of_mem Prod.fst hmem
    · simp only [dictSet, if_neg hqk] at hp
      rcases List.mem_cons.mp hp with rfl | hmem
      · exact Or.inr ⟨List.mem_cons_self _ _, hqk⟩
      · rcases ih hnd' hmem with rfl | ⟨hmem', hne⟩
        · exact Or.inl rfl
        · exact Or.inr ⟨List.mem_cons_of_mem _ hmem', hne⟩

end Hurricane

namespace Hurricane.MAS

theorem assignTask_success (s : MASState) (tid now : Nat) (s' : MASState)
    (h : assignTask s tid now = (s', true)) :
    ∃ task, findTask s tid = some task ∧
      (s.agents task.assignedAgent).currentTask = none ∧
      (task.dependencies.any fun dep =>
        match findTask s dep with
        | some dt => decide (dt.status ≠ TaskStatus.completed)
        | none => false) = false ∧
      s' = { s with
        tasks := dictSet s.tasks tid
          { task with status := .assigned, startedAt := some now },
        agents := fun r =>
          if r = task.assignedAgent then
            { s.agents task.assignedAgent with currentTask := some tid }
          else s.agents r } := by
  unfold assignTask at h
  cases hf : findTask s tid with
  | none => rw [hf] at h; cases h
  | some task =>
    rw [hf] at h
    simp only at h
    by_cases hb : (s.agents task.assignedAgent).currentTask.isSome
    · rw [if_pos hb] at h; cases h
    · rw [if_neg hb] at h
      by_cases hd : (task.dependencies.any fun dep =>
          match findTask s dep with
          | some dt => decide (dt.status ≠ TaskStatus.completed)
          | none => false) = true
      · rw [if_pos hd] at h; cases h
      · rw [if_neg hd] at h
        refine ⟨task, rfl, Option.not_isSome_iff_eq_none.mp hb,
          Bool.eq_false_iff.mpr hd, ?_⟩
        exact (Prod.mk.injEq _ _ _ _).mp h |>.1.symm

theorem inv_createTask (s : MASState) (tid : Nat) (title descr : String)
    (role : AgentRole) (priority : Nat) (deps : List Nat)
    (ctx : List (String × String)) (now : Nat)
    (hfresh : findTask s tid = none) (hinv : Inv s) :
    Inv (createTask s tid title descr role priority deps ctx now) := by
  obtain ⟨hnd, hlink⟩ := hinv
  constructor
  · show ((dictSet s.tasks tid _).map Prod.fst).Nodup
    rw [map_fst_dictSet, show dictGet s.tasks tid = none from hfresh]
    simp only [Option.isSome_none, Bool.false_eq_true, if_false]
    rw [List.nodup_append]
    refine ⟨hnd, List.nodup_singleton tid, ?_⟩
    intro x hx hx1
    rcases List.mem_map.mp hx with ⟨p, hp, rfl⟩
    have := dictGet_eq_none_forall hfresh p hp
    simp at hx1
    exact this hx1
  · intro p hp hact
    rcases mem_dictSet_of_nodup _ _ _ hnd p hp with rfl | ⟨hmem, _⟩
    · simp [activeStatus] at hact
    · exact hlink p hmem hact

theorem inv_assignTask {s s' : MASState} {tid now : Nat}
    (h : assignTask s tid now = (s', true)) (hinv : Inv s) : Inv s' := by
  obtain ⟨task, hf, hidle, _, rfl⟩ := assignTask_success s tid now s' h
  obtain ⟨hnd, hlink⟩ := hinv
  constructor
  · show ((dictSet s.tasks tid _).map Prod.fst).Nodup
    rw [map_fst_dictSet, show dictGet s.tasks tid = some task from hf]
    simpa using hnd
  · intro p hp hact
    rcases mem_dictSet_of_nodup _ _ _ hnd p hp with rfl | ⟨hmem, hne⟩
    · simp
    · have hl := hlink p hmem hact
      by_cases hr : p.2.assignedAgent = task.assignedAgent
      · rw [hr] at hl
        rw [hl] at hidle
        cases hidle
      · simpa [hr] using hl

theorem inv_beginTask {s : MASState} {tid : Nat} {task : AgentTask}
    (hf : findTask s tid = some task)
    (hcur : (s.agents task.assignedAgent).currentTask = some tid)
    (hinv : Inv s) : Inv (beginTask s tid) := by
  obtain ⟨hnd, hlink⟩ := hinv
  unfold beginTask
  rw [hf]
  constructor
  · show ((dictSet s.tasks tid _).map Prod.fst).Nodup
    rw [map_fst_dictSet, show dictGet s.tasks tid = some task from hf]
    simpa using hnd
  · intro p hp _
    rcases mem_dictSet_of_nodup _ _ _ hnd p hp with rfl | ⟨hmem, _⟩
    · exact hcur
    · exact hlink p hmem (by assumption)

theorem inv_finishTask {s : MASState} {tid : Nat} {task : AgentTask}
    {success : Bool} {now : Nat}
    (hf : findTask s tid = some task)
    (hcur : (s.agents task.assignedAgent).currentTask = some tid)
    (hinv : Inv s) : Inv (finishTask s tid success now) := by
  obtain ⟨hnd, hlink⟩ := hinv
  unfold finishTask
  rw [hf]
  constructor
  · show ((dictSet s.tasks tid _).map Prod.fst).Nodup
    rw [map_fst_dictSet, show dictGet s.tasks tid = some task from hf]
    simpa using hnd
  · intro p hp hact
    rcases mem_dictSet_of_nodup _ _ _ hnd p hp with rfl | ⟨hmem, hne⟩
    · exfalso
      cases success <;> simp [activeStatus] at hact
    · have hl := hlink p hmem hact
      by_cases hr : p.2.assignedAgent = task.assignedAgent
      · exfalso
        rw [hr] at hl
        rw [hl] at hcur
        exact hne (Option.some.inj hcur)
      · simpa [hr] using hl

theorem inv_initState : Inv initState := by
  constructor
  · simp [initState]
  · intro p hp
    simp [initState] at hp

theorem mstep_inv {s s' : MASState} (h : MStep s s') (hinv : Inv s) : Inv s' := by
  cases h with
  | create tid title descr role priority deps ctx now hfresh =>
      exact inv_createTask s tid title descr role priority deps ctx now hfresh hinv
  | assign s2 tid now hass =>
      exact inv_assignTask hass hinv
  | start tid task hf hst hcur =>
      exact inv_beginTask hf hcur hinv
  | finish tid task success now hf hst hcur =>
      exact inv_finishTask hf hcur hinv

theorem reachable_inv {s : MASState} (h : Reachable s) : Inv s := by
  induction h with
  | refl => exact inv_initState
  | tail _ hstep ih => exact mstep_inv hstep ih

theorem length_le_one_of_nodup_const {l : List Nat} {c : Nat} (hnd : l.Nodup)
    (hall : ∀ x ∈ l, x = c) : l.length ≤ 1 := by
  cases l with
  | nil => simp
  | cons x xs =>
    cases xs with
    | nil => simp
    | cons y ys =>
      exfalso
      rcases List.nodup_cons.mp hnd with ⟨hxn, _⟩
      have hx := hall x (List.mem_cons_self _ _)
      have hy := hall y (List.mem_cons_of_mem _ (List.mem_cons_self _ _))
      exact hxn ((hx.trans hy.symm) ▸ List.mem_cons_self _ _)

theorem activeTasks_le_one_of_inv (s : MASState) (hinv : Inv s) (r : AgentRole) :
    (activeTasksFor s r).length ≤ 1 := by
  obtain ⟨hnd, hlink⟩ := hinv
  have hsub : (activeTasksFor s r).Sublist s.tasks := List.filter_sublist _
  have hndl : ((activeTasksFor s r).map Prod.fst).Nodup :=
    (hsub.map Prod.fst).nodup hnd
  have hprop : ∀ p ∈ activeTasksFor s r,
      p.2.assignedAgent = r ∧ activeStatus p.2.status = true := by
    intro p hp
    have hcond := List.of_mem_filter hp
    simp only [Bool.and_eq_true, decide_eq_true_eq] at hcond
    exact hcond
  cases hcur : (s.agents r).currentTask with
  | none =>
    have : activeTasksFor s r = [] := by
      apply List.eq_nil_iff_forall_not_mem.mpr
      intro p hp
      rcases hprop p hp with ⟨hr, hact⟩
      have := hlink p (hsub.mem hp) hact
      rw [hr, hcur] at this
      cases this
    simp [this]
  | some c =>
    have hall : ∀ x ∈ (activeTasksFor s r).map Prod.fst, x = c := by
      intro x hx
      rcases List.mem_map.mp hx with ⟨p, hp, rfl⟩
      rcases hprop p hp with ⟨hr, hact⟩
      have := hlink p (hsub.mem hp) hact
      rw [hr, hcur] at this
      exact (Option.some.inj this).symm
    calc (activeTasksFor s r).length
        = ((activeTasksFor s r).map Prod.fst).length := (List.length_map _ _).symm
      _ ≤ 1 := length_le_one_of_nodup_const hndl hall

end Hurricane.MAS

namespace Hurricane.MAS

/-- C1: in every state the scheduler can reach from a fresh start, every
worker/agent has at most one task in status ASSIGNED or IN_PROGRESS;
moreover `assign_task` refuses (returns `false` with the state unchanged)
whenever the designated worker's `current_task` is non-null.  Task execution
clears `current_task` exactly when the task leaves those statuses
(`finishTask`), which is what maintains the invariant. -/
theorem single_worker_invariant (s : MASState) (hs : Reachable s) :
    (∀ r : AgentRole, (activeTasksFor s r).length ≤ 1) ∧
    (∀ tid now task, findTask s tid = some task →
      (s.agents task.assignedAgent).currentTask.isSome = true →
      assignTask s tid now = (s, false)) := by
  refine ⟨fun r => activeTasks_le_one_of_inv s (reachable_inv hs) r, ?_⟩
  intro tid now task hf hbusy
  unfold assignTask
  rw [hf]
  simp only [hbusy, if_pos]

/-- Witness for C1 at a concrete reachable state: one coder task created and
assigned. -/
theorem single_worker_invariant_witness :
    (activeTasksFor demoAssigned AgentRole.coder).length ≤ 1 ∧
    (activeTasksFor demoAssigned AgentRole.tester).length ≤ 1 := by
  have h1 : MStep initState demoCreated :=
    MStep.create initState 1 "implement feature" "write the code" .coder 3 [] [] 0 rfl
  have h2 : MStep demoCreated demoAssigned :=
    MStep.assign demoCreated demoAssigned 1 1 rfl
  have hreach : Reachable demoAssigned :=
    Relation.ReflTransGen.tail (Relation.ReflTransGen.single h1) h2
  exact ⟨(single_worker_invariant demoAssigned hreach).1 _,
         (single_worker_invariant demoAssigned hreach).1 _⟩

end Hurricane.MAS

namespace Hurricane.Planner

/-- C4: for a goal with a non-empty subtask list, `_update_goal_progress`
(the routine run when a task-status mutation settles) sets the goal's
progress percentage to `100 * completed_subtasks / total_subtasks` and marks
the goal `completed` exactly when that value reaches 100; the subtask list
itself is unchanged. -/
theorem goal_progress_consistency (s : PlannerState) (gid : Nat) (g : Goal)
    (hg : findGoal s gid = some g) (hne : g.subtasks ≠ []) :
    ∃ g', findGoal (updateGoalProgress s gid) gid = some g' ∧
      g'.progressPercentage =
        100 * (completedCount s g : ℚ) / (g.subtasks.length : ℚ) ∧
      (g'.progressPercentage = 100 → g'.status = "completed") ∧
      g'.subtasks = g.subtasks := by
  have hemp : g.subtasks.isEmpty = false := by
    cases hsub : g.subtasks with
    | nil => exact absurd hsub hne
    | cons a l => rfl
  simp only [updateGoalProgress, hg, hemp, Bool.false_eq_true, if_false]
  split_ifs with hp
  · refine ⟨_, dictGet_dictSet_self _ _ _, ?_, ?_, ?_⟩
    · show ((completedCount s g : ℚ) / (g.subtasks.length : ℚ)) * 100
        = 100 * (completedCount s g : ℚ) / (g.subtasks.length : ℚ)
      ring
    · intro _; rfl
    · rfl
  · refine ⟨_, dictGet_dictSet_self _ _ _, ?_, ?_, ?_⟩
    · show ((completedCount s g : ℚ) / (g.subtasks.length : ℚ)) * 100
        = 100 * (completedCount s g : ℚ) / (g.subtasks.length : ℚ)
      ring
    · intro h100
      exact absurd h100 hp
    · rfl

/-- Witness for C4 at a concrete state: a goal with two subtasks, one
completed. -/
theorem goal_progress_consistency_witness :
    findGoal demoPlanner 10 = some demoGoal ∧ demoGoal.subtasks ≠ [] ∧
    ∃ g', findGoal (updateGoalProgress demoPlanner 10) 10 = some g' ∧
      g'.progressPercentage =
        100 * (completedCount demoPlanner demoGoal : ℚ) /
          (demoGoal.subtasks.length : ℚ) ∧
      (g'.progressPercentage = 100 → g'.status = "completed") ∧
      g'.subtasks = demoGoal.subtasks :=
  ⟨rfl, by decide,
    goal_progress_consistency demoPlanner 10 demoGoal rfl (by decide)⟩

end Hurricane.Planner

namespace Hurricane

/-- C2 counterexample: in a state reachable through `_load_tasks` (task 1 is
approval-free, PLANNED, and depends on task 0 which is still PLANNED),
`execute_autonomous_task` happily starts task 1 — it performs no dependency
check at all — so task 1 is observed IN_PROGRESS while its dependency is not
completed, refuting the claim for the manual execute-task path. -/
theorem dependency_gating_counterexample :
    Planner.executeStart Planner.depState 1 5 = some Planner.depStateStarted ∧
    (Planner.findPTask Planner.depState 1).map (fun t => t.dependencies)
      = some [0] ∧
    (Planner.findPTask Planner.depStateStarted 1).map (fun t => t.status)
      = some Planner.PStatus.inProgress ∧
    (Planner.findPTask Planner.depStateStarted 0).map (fun t => t.status)
      = some Planner.PStatus.planned :=
  ⟨rfl, rfl, rfl, rfl⟩

/-- C2 (amended): the scheduler's `assign_task` does gate on dependencies —
whenever it succeeds, every dependency id that resolves in the task dict
refers to a COMPLETED task (dangling ids are ignored) — but the manual
`execute_autonomous_task` path checks only the human-approval flag and the
PLANNED status: it succeeds if and only if those two guards pass, with no
dependency condition whatsoever. -/
theorem dependency_gating_amended :
    (∀ (s : MAS.MASState) (tid now : Nat) (s' : MAS.MASState)
        (task : MAS.AgentTask),
      MAS.assignTask s tid now = (s', true) →
      MAS.findTask s tid = some task →
      ∀ dep ∈ task.dependencies, ∀ dt, MAS.findTask s dep = some dt →
        dt.status = MAS.TaskStatus.completed) ∧
    (∀ (ps : Planner.PlannerState) (tid now : Nat),
      (Planner.executeStart ps tid now).isSome = true ↔
        ∃ t, Planner.findPTask ps tid = some t ∧
          t.humanApprovalRequired = false ∧
          t.status = Planner.PStatus.planned) := by
  constructor
  · intro s tid now s' task h hf dep hdep dt hdt
    obtain ⟨task0, hf0, _, hany, _⟩ := MAS.assignTask_success s tid now s' h
    rw [hf] at hf0
    cases hf0
    have hall := List.any_eq_false.mp hany dep hdep
    rw [hdt] at hall
    simp only [decide_eq_true_eq, Decidable.not_not] at hall
    exact hall
  · intro ps tid now
    unfold Planner.executeStart
    cases hf : Planner.findPTask ps tid with
    | none => simp
    | some t =>
      by_cases h1 : t.humanApprovalRequired = true
      · simp [h1]
      · by_cases h2 : t.status = Planner.PStatus.planned
        · simp [h1, h2]
        · simp [h1, h2]

/-- Witness for C2 (amended), exercising both conjuncts at concrete states:
after a successful assignment of a task whose dependency exists, that
dependency is COMPLETED; and `execute_autonomous_task` accepts an
approval-free planned task. -/
theorem dependency_gating_amended_witness :
    Planner.depGatedTask.humanApprovalRequired = false ∧
    MAS.masDepTask1After.status = MAS.TaskStatus.completed ∧
    (Planner.executeStart Planner.depState 1 5).isSome = true :=
  ⟨rfl,
   dependency_gating_amended.1 MAS.masDepState 2 4 MAS.masDepAssigned
     MAS.masDepTask2 rfl rfl 1 (by decide) MAS.masDepTask1After rfl,
   (dependency_gating_amended.2 Planner.depState 1 5).mpr
     ⟨Planner.depGatedTask, rfl, rfl, rfl⟩⟩

end Hurricane

namespace Hurricane

theorem dictGet_eq_none_of_forall {κ α : Type} [DecidableEq κ]
    {l : List (κ × α)} {k : κ} (h : ∀ p ∈ l, p.1 ≠ k) :
    dictGet l k = none := by
  induction l with
  | nil => rfl
  | cons p ps ih =>
    have hp : ¬ p.1 = k := h p (List.mem_cons_self _ _)
    simp only [dictGet, if_neg hp]
    exact ih (fun q hq => h q (List.mem_cons_of_mem _ hq))

theorem dictSet_append_of_fresh {κ α : Type} [DecidableEq κ]
    {l : List (κ × α)} {k : κ} (v : α) (h : ∀ p ∈ l, p.1 ≠ k) :
    dictSet l k v = l ++ [(k, v)] := by
  induction l with
  | nil => rfl
  | cons p ps ih =>
    have hp : ¬ p.1 = k := h p (List.mem_cons_self _ _)
    simp only [dictSet, if_neg hp, List.cons_append, List.cons.injEq, true_and]
    exact ih (fun q hq => h q (List.mem_cons_of_mem _ hq))

end Hurricane

namespace Hurricane.Planner

theorem fallbackCountL_append (gid : Nat) (l1 l2 : List (Nat × AutonomousTask)) :
    fallbackCountL gid (l1 ++ l2) = fallbackCountL gid l1 + fallbackCountL gid l2 := by
  simp [fallbackCountL, List.filter_append]

theorem fallbackCountL_single (gid : Nat) (k : Nat) (t : AutonomousTask) :
    fallbackCountL gid [(k, t)] = if isFallbackFor gid t then 1 else 0 := by
  by_cases h : isFallbackFor gid t = true
  · simp [fallbackCountL, h]
  · simp [fallbackCountL, List.filter, h]

theorem isFallbackFor_fallbackTask (gid tid now : Nat) (g : Goal)
    (hid : g.id = gid) :
    isFallbackFor gid (fallbackTask tid now g) = true := by
  simp [isFallbackFor, fallbackTask, hid, dictGet]

theorem isFallbackFor_mkTask (gid tid now gid2 : Nat) (pt : ParsedTask) :
    isFallbackFor gid (mkTaskFromParsed tid now gid2 pt) = false := by
  simp [isFallbackFor, mkTaskFromParsed, dictGet]

theorem addTaskToGoal_spec (s : PlannerState) (gid : Nat) (g : Goal)
    (t : AutonomousTask) (hg : findGoal s gid = some g)
    (hfr : ∀ p ∈ s.tasks, p.1 ≠ t.id) :
    addTaskToGoal s gid t =
      { s with tasks := s.tasks ++ [(t.id, t)],
               goals := dictSet s.goals gid
                 { g with subtasks := g.subtasks ++ [t.id] } } := by
  unfold addTaskToGoal
  simp only [show findGoal { s with tasks := dictSet s.tasks t.id t } gid = some g
    from hg]
  rw [dictSet_append_of_fresh t hfr]

theorem addFallback_spec (s : PlannerState) (gid now : Nat) (g : Goal)
    (hg : findGoal s gid = some g) (hfr : FreshIds s) :
    addFallback s gid now =
      { s with nextId := s.nextId + 1,
               tasks := s.tasks ++ [(s.nextId, fallbackTask s.nextId now g)],
               goals := dictSet s.goals gid
                 { g with subtasks := g.subtasks ++ [s.nextId] } } := by
  unfold addFallback
  simp only [hg]
  rw [addTaskToGoal_spec { s with nextId := s.nextId + 1 } gid g
    (fallbackTask s.nextId now g) hg
    (fun p hp => Nat.ne_of_lt (hfr p hp))]
  rfl

theorem itemsAdded_eq_zero (items : List (Option ParsedTask)) :
    itemsAdded items = 0 ↔ items = [] := by
  cases items with
  | nil => simp [itemsAdded]
  | cons item rest =>
    cases item with
    | none => simp [itemsAdded]
    | some pt => simp [itemsAdded]

theorem decomposeItems_spec (items : List (Option ParsedTask)) :
    ∀ (s : PlannerState) (now gid : Nat) (g : Goal),
      findGoal s gid = some g → g.id = gid → FreshIds s →
      ∃ g' newIds,
        findGoal (decomposeItems s gid now items) gid = some g' ∧
        g'.id = gid ∧
        g'.subtasks = g.subtasks ++ newIds ∧
        newIds.length = itemsAdded items ∧
        fallbackCountFor (decomposeItems s gid now items) gid =
          fallbackCountFor s gid + (if hasBadItem items then 1 else 0) ∧
        (hasBadItem items = true →
          ∃ tid ft, (tid, ft) ∈ (decomposeItems s gid now items).tasks ∧
            isFallbackFor gid ft = true ∧ ft.humanApprovalRequired = true ∧
            tid ∈ g'.subtasks) := by
  induction items with
  | nil =>
    intro s now gid g hg hid hfr
    refine ⟨g, [], by simpa using hg, hid, by simp, rfl, ?_, ?_⟩
    · rfl
    · simp [hasBadItem]
  | cons item rest ih =>
    intro s now gid g hg hid hfr
    cases item with
    | none =>
      have hres : decomposeItems s gid now (Option.none :: rest)
          = addFallback s gid now := rfl
      rw [hres, addFallback_spec s gid now g hg hfr]
      refine ⟨{ g with subtasks := g.subtasks ++ [s.nextId] }, [s.nextId],
        dictGet_dictSet_self _ _ _, hid, rfl, rfl, ?_, ?_⟩
      · show fallbackCountL gid (s.tasks ++ [(s.nextId, fallbackTask s.nextId now g)])
          = fallbackCountL gid s.tasks + _
        rw [fallbackCountL_append, fallbackCountL_single,
          if_pos (isFallbackFor_fallbackTask gid s.nextId now g hid)]
        simp [hasBadItem]
      · intro _
        exact ⟨s.nextId, fallbackTask s.nextId now g,
          List.mem_append_right _ (List.mem_singleton.mpr rfl),
          isFallbackFor_fallbackTask gid s.nextId now g hid, rfl,
          List.mem_append_right _ (List.mem_singleton.mpr rfl)⟩
    | some pt =>
      set t := mkTaskFromParsed s.nextId now gid pt with ht
      have htid : t.id = s.nextId := rfl
      have hstep : decomposeItems s gid now (Option.some pt :: rest)
          = decomposeItems (addTaskToGoal { s with nextId := s.nextId + 1 } gid t)
              gid now rest := rfl
      have hadd := addTaskToGoal_spec { s with nextId := s.nextId + 1 } gid g t hg
        (fun p hp => htid ▸ Nat.ne_of_lt (hfr p hp))
      set g2 : Goal := { g with subtasks := g.subtasks ++ [t.id] } with hg2
      set s1 : PlannerState :=
        { s with nextId := s.nextId + 1,
                 tasks := s.tasks ++ [(t.id, t)],
                 goals := dictSet s.goals gid g2 } with hs1
      have hg1 : findGoal s1 gid = some g2 := dictGet_dictSet_self _ _ _
      have hid1 : g2.id = gid := hid
      have hfr1 : FreshIds s1 := by
        intro p hp
        rcases List.mem_append.mp hp with hmem | hmem
        · exact Nat.lt_trans (hfr p hmem) (Nat.lt_succ_self _)
        · rcases List.mem_singleton.mp hmem with rfl
          exact htid ▸ Nat.lt_succ_self _
      obtain ⟨g', newIds, hfind, hgid, hsub, hlen, hcount, hbad⟩ :=
        ih s1 now gid g2 hg1 hid1 hfr1
      rw [hstep, hadd]
      refine ⟨g', t.id :: newIds, hfind, hgid, ?_, ?_, ?_, ?_⟩
      · rw [hsub, hg2]
        simp
      · simp [List.length_cons, hlen, itemsAdded, Nat.add_comm]
      · have hc1 : fallbackCountFor s1 gid = fallbackCountFor s gid := by
          show fallbackCountL gid (s.tasks ++ [(t.id, t)]) = fallbackCountL gid s.tasks
          rw [fallbackCountL_append, fallbackCountL_single,
            if_neg (show ¬ isFallbackFor gid t = true by
              rw [ht, isFallbackFor_mkTask gid s.nextId now gid pt]
              exact Bool.false_ne_true)]
          omega
        rw [hcount, hc1]
        rfl
      · intro hbaditem
        have : hasBadItem rest = true := hbaditem
        obtain ⟨tid, ft, hmem, hfb, happr, hin⟩ := hbad this
        exact ⟨tid, ft, hmem, hfb, happr, hin⟩

end Hurricane.Planner

namespace Hurricane.Planner

theorem isFallbackFor_metadata {gid : Nat} {t : AutonomousTask}
    (h : isFallbackFor gid t = true) :
    dictGet t.metadata "fallback" = some (MetaVal.bool true) := by
  simp only [isFallbackFor, Bool.and_eq_true, decide_eq_true_eq] at h
  exact h.2

/-- C3: when the generation service raises, or returns content that cannot
be parsed into the task schema (`failure`, or a parsed list containing a
malformed entry), goal decomposition creates exactly one fallback task: the
goal's fallback count rises by exactly one, the fallback requires human
approval (`autonomous = false`), its metadata records the parse failure via
the `fallback = True` marker, and its id is linked into the goal's subtask
list — the goal is never dropped. -/
theorem fallback_task_on_failure (s : PlannerState) (gid now : Nat) (g : Goal)
    (resp : GenOutcome)
    (hg : findGoal s gid = some g) (hid : g.id = gid) (hfr : FreshIds s)
    (hfail : resp = GenOutcome.failure ∨
      ∃ items, resp = GenOutcome.parsed items ∧ hasBadItem items = true) :
    fallbackCountFor (decomposeGoal s gid resp now) gid
      = fallbackCountFor s gid + 1 ∧
    ∃ tid ft g', (tid, ft) ∈ (decomposeGoal s gid resp now).tasks ∧
      isFallbackFor gid ft = true ∧
      ft.humanApprovalRequired = true ∧
      dictGet ft.metadata "fallback" = some (MetaVal.bool true) ∧
      findGoal (decomposeGoal s gid resp now) gid = some g' ∧
      tid ∈ g'.subtasks := by
  rcases hfail with rfl | ⟨items, rfl, hbad⟩
  · rw [show decomposeGoal s gid GenOutcome.failure now = addFallback s gid now
        from rfl,
      addFallback_spec s gid now g hg hfr]
    constructor
    · show fallbackCountL gid
        (s.tasks ++ [(s.nextId, fallbackTask s.nextId now g)]) = _
      rw [fallbackCountL_append, fallbackCountL_single,
        if_pos (isFallbackFor_fallbackTask gid s.nextId now g hid)]
      rfl
    · refine ⟨s.nextId, fallbackTask s.nextId now g,
        { g with subtasks := g.subtasks ++ [s.nextId] },
        List.mem_append_right _ (List.mem_singleton.mpr rfl),
        isFallbackFor_fallbackTask gid s.nextId now g hid, rfl, rfl,
        dictGet_dictSet_self _ _ _,
        List.mem_append_right _ (List.mem_singleton.mpr rfl)⟩
  · obtain ⟨g', newIds, hfind, _, _, _, hcount, hwitness⟩ :=
      decomposeItems_spec items s now gid g hg hid hfr
    obtain ⟨tid, ft, hmem, hfb, happr, hin⟩ := hwitness hbad
    constructor
    · rw [show decomposeGoal s gid (GenOutcome.parsed items) now
          = decomposeItems s gid now items from rfl, hcount, if_pos hbad]
    · exact ⟨tid, ft, g', hmem, hfb, happr, isFallbackFor_metadata hfb,
        hfind, hin⟩

/-- Witness for C3 at a concrete state: decomposition failure for
`demoGoal`. -/
theorem fallback_task_on_failure_witness :
    fallbackCountFor (decomposeGoal demoPlanner 10 GenOutcome.failure 7) 10
      = fallbackCountFor demoPlanner 10 + 1 ∧
    ∃ tid ft g',
      (tid, ft) ∈ (decomposeGoal demoPlanner 10 GenOutcome.failure 7).tasks ∧
      isFallbackFor 10 ft = true ∧
      ft.humanApprovalRequired = true ∧
      dictGet ft.metadata "fallback" = some (MetaVal.bool true) ∧
      findGoal (decomposeGoal demoPlanner 10 GenOutcome.failure 7) 10
        = some g' ∧
      tid ∈ g'.subtasks :=
  fallback_task_on_failure demoPlanner 10 7 demoGoal GenOutcome.failure rfl rfl
    (by unfold FreshIds; decide) (Or.inl rfl)

theorem findGoal_generateSuggestions (s : PlannerState) (gid gid2 : Nat) :
    findGoal (generateSuggestions s gid) gid2 = findGoal s gid2 := by
  cases hm : pyMinBy suggKey (goalPlannedTasks s gid) with
  | none => simp [generateSuggestions, hm]
  | some t => simp [generateSuggestions, hm, findGoal]

/-- C5 (amended): after `set_goal`, the new goal has at least one subtask
when the generation service fails or any entry of its output is malformed
(the fallback), and also when the parsed list is non-empty; but when the
service returns a successfully parsed *empty* task list, the goal ends up
with zero subtasks: the subtask list is empty exactly for the outcome
`parsed []`. -/
theorem goal_subtasks_after_setGoal (s : PlannerState)
    (title descr target : String) (priority : TaskPriority)
    (deadline : Option String) (resp : GenOutcome) (now : Nat)
    (hfr : FreshIds s) :
    ∃ g', findGoal (setGoal s title descr target priority deadline resp now).1
            (setGoal s title descr target priority deadline resp now).2
          = some g' ∧
      (g'.subtasks = [] ↔ resp = GenOutcome.parsed []) := by
  set gid := s.nextId with hgid
  set g0 : Goal :=
    { id := gid, title := title, description := descr,
      targetOutcome := target, priority := priority, deadline := deadline,
      createdAt := now, status := "active", progressPercentage := 0,
      subtasks := [], successMetrics := [], context := [] } with hg0
  set s1 : PlannerState :=
    { s with nextId := gid + 1, goals := dictSet s.goals gid g0 } with hs1
  have hg1 : findGoal s1 gid = some g0 := dictGet_dictSet_self _ _ _
  have hid1 : g0.id = gid := rfl
  have hfr1 : FreshIds s1 :=
    fun p hp => Nat.lt_trans (hfr p hp) (Nat.lt_succ_self _)
  cases resp with
  | failure =>
    refine ⟨{ g0 with subtasks := g0.subtasks ++ [s1.nextId] }, ?_, ?_⟩
    · show findGoal
        (generateSuggestions (decomposeGoal s1 gid GenOutcome.failure now) gid)
        gid = _
      rw [findGoal_generateSuggestions,
        show decomposeGoal s1 gid GenOutcome.failure now
          = addFallback s1 gid now from rfl,
        addFallback_spec s1 gid now g0 hg1 hfr1]
      exact dictGet_dictSet_self _ _ _
    · constructor
      · intro he
        simp at he
      · intro he
        cases he
  | parsed items =>
    obtain ⟨g', newIds, hfind, _, hsub, hlen, _, _⟩ :=
      decomposeItems_spec items s1 now gid g0 hg1 hid1 hfr1
    have hsub2 : g'.subtasks = newIds := by simpa using hsub
    refine ⟨g', ?_, ?_⟩
    · show findGoal
        (generateSuggestions
          (decomposeGoal s1 gid (GenOutcome.parsed items) now) gid) gid = _
      rw [findGoal_generateSuggestions]
      exact hfind
    · rw [hsub2]
      constructor
      · intro he
        have h0 : itemsAdded items = 0 := by rw [← hlen, he]; rfl
        rw [(itemsAdded_eq_zero items).mp h0]
      · intro he
        injection he with he2
        subst he2
        have : newIds.length = 0 := by rw [hlen]; rfl
        simpa using List.length_eq_zero.mp this

/-- C5 counterexample: submitting a goal while the generation service
returns the successfully parsed empty task list leaves the goal with zero
subtasks (and status `active`), violating the claimed
at-least-one-subtask guarantee. -/
theorem goal_subtask_counterexample :
    (setGoal emptyPlanner "raise coverage" "more tests" "coverage up"
        TaskPriority.medium none (GenOutcome.parsed []) 0).2 = 0 ∧
    ((findGoal (setGoal emptyPlanner "raise coverage" "more tests"
        "coverage up" TaskPriority.medium none (GenOutcome.parsed []) 0).1
        0).map (fun g => g.subtasks)) = some [] ∧
    ((findGoal (setGoal emptyPlanner "raise coverage" "more tests"
        "coverage up" TaskPriority.medium none (GenOutcome.parsed []) 0).1
        0).map (fun g => g.status)) = some "active" :=
  ⟨rfl, rfl, rfl⟩

/-- Witness for C5 (amended) at a concrete input: generation failure yields
a goal whose subtask list is non-empty. -/
theorem goal_subtasks_after_setGoal_witness :
    ∃ g', findGoal (setGoal emptyPlanner "g" "d" "o" TaskPriority.medium none
            GenOutcome.failure 0).1
          (setGoal emptyPlanner "g" "d" "o" TaskPriority.medium none
            GenOutcome.failure 0).2 = some g' ∧
      (g'.subtasks = [] ↔ GenOutcome.failure = GenOutcome.parsed []) :=
  goal_subtasks_after_setGoal emptyPlanner "g" "d" "o" TaskPriority.medium
    none GenOutcome.failure 0 (by unfold FreshIds; decide)

end Hurricane.Planner

namespace Hurricane.MAS

/-- C6 counterexample: two simultaneously ready coder tasks, the
second-created one having the strictly higher priority.  One coordination
pass dispatches the *first-created, lower-priority* task (no priority
ordering), removes both from the workflow's pending list, and the
higher-priority task is left PENDING; even after the dispatched task runs
to completion the other is never dispatched, because the loop's pending
list is already empty.  This refutes both the priority-first ordering and
the dispatch-after-completion behaviour the claim states. -/
theorem dispatch_ordering_counterexample :
    (findTask twoCoderTasks 1).map (fun t => t.priority) = some 1 ∧
    (findTask twoCoderTasks 2).map (fun t => t.priority) = some 5 ∧
    (findTask twoCoderTasks 1).map (fun t => t.assignedAgent)
      = some AgentRole.coder ∧
    (findTask twoCoderTasks 2).map (fun t => t.assignedAgent)
      = some AgentRole.coder ∧
    readyList twoCoderTasks [1, 2] = [1, 2] ∧
    (coordinateIter twoCoderTasks [1, 2] 5).2 = [] ∧
    (findTask twoCoderAfterIter 1).map (fun t => t.status)
      = some TaskStatus.assigned ∧
    (findTask twoCoderAfterIter 2).map (fun t => t.status)
      = some TaskStatus.pending ∧
    (findTask twoCoderFinal 1).map (fun t => t.status)
      = some TaskStatus.completed ∧
    (findTask twoCoderFinal 2).map (fun t => t.status)
      = some TaskStatus.pending :=
  ⟨rfl, rfl, rfl, rfl, rfl, rfl, rfl, rfl, rfl, rfl⟩

/-- C6 (amended): one coordination pass attempts the ready tasks in
workflow-list order (the ready list is a sublist of `task_ids`, priority is
never consulted), and removes every ready task from the pending list whether
or not its assignment succeeded — a ready task whose worker is busy is
dropped and never re-dispatched by the loop. -/
theorem dispatch_ordering_amended (s : MASState) (ids : List Nat) (now : Nat)
    (tid : Nat) (h : tid ∈ readyList s ids) :
    tid ∉ (coordinateIter s ids now).2 ∧
    (readyList s ids).Sublist ids := by
  refine ⟨?_, List.filter_sublist _⟩
  intro hmem
  have hc := List.of_mem_filter hmem
  simp only [Bool.not_eq_true'] at hc
  have htrue : (readyList s ids).contains tid = true :=
    List.elem_eq_true_of_mem h
  rw [htrue] at hc
  cases hc

/-- Witness for C6 (amended) at the two-coder scenario. -/
theorem dispatch_ordering_amended_witness :
    (1 : Nat) ∉ (coordinateIter twoCoderTasks [1, 2] 5).2 ∧
    (readyList twoCoderTasks [1, 2]).Sublist [1, 2] :=
  dispatch_ordering_amended twoCoderTasks [1, 2] 5 1 (by decide)

/-- C7: concrete workflow of a coder task and a tester task depending on it;
the coder task is dispatched and fails.  The failure check scans only the
still-pending ids, where the failed task no longer appears (it was removed
when assigned), so the check returns `false`; one more coordination pass is
a no-op fixpoint, and the loop therefore runs forever for every iteration
budget — it never halts dispatching with a partial-failure report as the
claim (and the code's own failure-check intent) requires, and the dependent
task stays PENDING forever. -/
theorem workflow_failure_not_detected :
    (findTask failAfterFailure 1).map (fun t => t.status)
      = some TaskStatus.failed ∧
    (findTask failAfterFailure 2).map (fun t => t.status)
      = some TaskStatus.pending ∧
    failedCheck failAfterFailure [2] = false ∧
    coordinateIter failAfterFailure [2] 10 = (failAfterFailure, [2]) ∧
    ∀ fuel, coordinateLoop fuel failAfterFailure [2] 10
      = (failAfterFailure, [2], LoopResult.running) := by
  refine ⟨rfl, rfl, rfl, rfl, ?_⟩
  intro fuel
  induction fuel with
  | zero => rfl
  | succ n ih => exact ih

end Hurricane.MAS

namespace Hurricane.Planner

theorem keyLt_iff (a b : Nat × Nat × Nat) :
    keyLt a b = true ↔
      (a.1 < b.1 ∨ (a.1 = b.1 ∧
        (a.2.1 < b.2.1 ∨ (a.2.1 = b.2.1 ∧ a.2.2 < b.2.2)))) := by
  simp [keyLt]

theorem keyLt_false_iff (a b : Nat × Nat × Nat) :
    keyLt a b = false ↔
      ¬ (a.1 < b.1 ∨ (a.1 = b.1 ∧
        (a.2.1 < b.2.1 ∨ (a.2.1 = b.2.1 ∧ a.2.2 < b.2.2)))) := by
  rw [Bool.eq_false_iff]
  exact not_congr (keyLt_iff a b)

theorem pyFoldMin_spec {α : Type} (f : α → Nat × Nat × Nat) :
    ∀ (xs : List α) (b : α),
      (List.foldl (fun best y => if keyLt (f y) (f best) then y else best) b xs
          = b ∨
       List.foldl (fun best y => if keyLt (f y) (f best) then y else best) b xs
          ∈ xs) ∧
      keyLt (f b)
        (f (List.foldl (fun best y => if keyLt (f y) (f best) then y else best)
          b xs)) = false ∧
      ∀ u ∈ xs, keyLt (f u)
        (f (List.foldl (fun best y => if keyLt (f y) (f best) then y else best)
          b xs)) = false := by
  intro xs
  induction xs with
  | nil =>
    intro b
    refine ⟨Or.inl rfl, ?_, ?_⟩
    · rw [keyLt_false_iff]
      simp only [List.foldl_nil]
      omega
    · intro u hu
      cases hu
  | cons y ys ih =>
    intro b
    rw [List.foldl_cons]
    by_cases hlt : keyLt (f y) (f b) = true
    · rw [if_pos hlt]
      obtain ⟨hmem, hb', hall⟩ := ih y
      refine ⟨?_, ?_, ?_⟩
      · refine Or.inr ?_
        rcases hmem with he | hm
        · rw [he]
          exact List.mem_cons_self _ _
        · exact List.mem_cons_of_mem _ hm
      · rw [keyLt_false_iff]
        rw [keyLt_iff] at hlt
        rw [keyLt_false_iff] at hb'
        omega
      · intro u hu
        rcases List.mem_cons.mp hu with rfl | hm
        · exact hb'
        · exact hall u hm
    · rw [if_neg hlt]
      obtain ⟨hmem, hb', hall⟩ := ih b
      have hltf : keyLt (f y) (f b) = false := Bool.eq_false_iff.mpr hlt
      refine ⟨?_, hb', ?_⟩
      · rcases hmem with he | hm
        · exact Or.inl he
        · exact Or.inr (List.mem_cons_of_mem _ hm)
      · intro u hu
        rcases List.mem_cons.mp hu with rfl | hm
        · rw [keyLt_false_iff]
          rw [keyLt_false_iff] at hb'
          rw [keyLt_false_iff] at hltf
          omega
        · exact hall u hm

theorem pyMinBy_spec {α : Type} (f : α → Nat × Nat × Nat) (l : List α) (t : α)
    (h : pyMinBy f l = some t) :
    t ∈ l ∧ ∀ u ∈ l, keyLt (f u) (f t) = false := by
  cases l with
  | nil => cases h
  | cons x xs =>
    have ht : List.foldl (fun best y => if keyLt (f y) (f best) then y else best)
        x xs = t := Option.some.inj h
    obtain ⟨hmem, hx, hall⟩ := pyFoldMin_spec f xs x
    rw [ht] at hmem hx hall
    refine ⟨?_, ?_⟩
    · rcases hmem with he | hm
      · exact he ▸ List.mem_cons_self _ _
      · exact List.mem_cons_of_mem _ hm
    · intro u hu
      rcases List.mem_cons.mp hu with rfl | hm
      · exact hx
      · exact hall u hm

/-- C8 (amended): the next-step suggestion picks, among the goal's PLANNED
tasks (dependencies are *not* filtered), a task minimal for the comparison
key `(priority != critical, priority != high, len(dependencies))` — so
critical first, then high, with medium and low indistinguishable, ties
broken by fewest dependencies then task-dict insertion order, not by
creation time; emitting the suggestion changes no task or goal (it only
appends to the suggestion list). -/
theorem suggestion_selection_amended (s : PlannerState) (gid : Nat)
    (t : AutonomousTask)
    (h : pyMinBy suggKey (goalPlannedTasks s gid) = some t) :
    t ∈ goalPlannedTasks s gid ∧
    (∀ u ∈ goalPlannedTasks s gid, keyLt (suggKey u) (suggKey t) = false) ∧
    (generateSuggestions s gid).tasks = s.tasks ∧
    (generateSuggestions s gid).goals = s.goals ∧
    (generateSuggestions s gid).suggestions = s.suggestions ++
      [{ taskId := t.id, title := t.title,
         autonomous := !t.humanApprovalRequired }] := by
  obtain ⟨hmem, hmin⟩ := pyMinBy_spec suggKey (goalPlannedTasks s gid) t h
  refine ⟨hmem, hmin, ?_, ?_, ?_⟩ <;> simp [generateSuggestions, h]

/-- C8 counterexample: a goal with two planned tasks, both with no
dependencies — a low-priority one created first and a medium-priority one
created second.  The spec's selection rule picks the medium-priority task,
but the code's suggestion names the low-priority one (their comparison keys
tie and Python's `min` keeps the first in dict order), while changing no
task status. -/
theorem suggestion_selection_counterexample :
    ((goalPlannedTasks suggState 10).map (fun t => t.id)) = [1, 2] ∧
    depsMet suggState lowFirstTask = true ∧
    depsMet suggState mediumSecondTask = true ∧
    lowFirstTask.priority = TaskPriority.low ∧
    mediumSecondTask.priority = TaskPriority.medium ∧
    ((generateSuggestions suggState 10).suggestions.map (fun sg => sg.taskId))
      = [1] ∧
    (specSuggestedTask suggState 10).map (fun t => t.id) = some 2 ∧
    (findPTask (generateSuggestions suggState 10) 1).map (fun t => t.status)
      = some PStatus.planned ∧
    (findPTask (generateSuggestions suggState 10) 2).map (fun t => t.status)
      = some PStatus.planned :=
  ⟨rfl, rfl, rfl, rfl, rfl, rfl, rfl, rfl, rfl⟩

/-- Witness for C8 (amended) at the two-task scenario: the suggestion picks
the first-inserted task and only appends to the suggestion list. -/
theorem suggestion_selection_amended_witness :
    lowFirstTask ∈ goalPlannedTasks suggState 10 ∧
    (generateSuggestions suggState 10).tasks = suggState.tasks ∧
    (generateSuggestions suggState 10).suggestions = suggState.suggestions ++
      [{ taskId := lowFirstTask.id, title := lowFirstTask.title,
         autonomous := !lowFirstTask.humanApprovalRequired }] := by
  have h := suggestion_selection_amended suggState 10 lowFirstTask rfl
  exact ⟨h.1, h.2.2.1, h.2.2.2.2⟩

end Hurricane.Planner
